import Mathlib

/-!
# Shallow embedding of `src/server.js` (feedback-collection service)

This file embeds the data model and the HTTP handlers of the Express
service in `src/server.js` and proves properties of them.

Modelling conventions:
* Request-body fields arrive as JavaScript values (`JsVal`): the handlers
  inspect truthiness, call string methods (which throw on non-strings),
  and coerce values to strings where JS does (`RegExp.test`).
* The server state is the in-memory array `feedbackStore` together with
  the contents of the data file (`disk`); `saveFeedbackData` is modelled
  by a `saveErr : Option String` parameter of each mutating handler:
  `none` means the `fs.writeFile` call succeeds (the disk then mirrors
  the store), `some e` means it throws an error whose `.message` is `e`,
  which the route's `catch` turns into a 500 response.
* `generateId()` and `new Date().toISOString()` are environment inputs
  (`newId`, `createdAt` parameters).
* JavaScript's `Array.prototype.sort` is stable (ECMA-262); with the
  comparator `(a, b) => b.votes - a.votes` over integer vote counts the
  result is exactly the stable sort by votes descending, which we embed
  as a stable insertion sort (`sortByVotesDesc`).
-/

/-- JavaScript runtime values that can appear as request-body fields. -/
inductive JsVal where
  | str (s : String)
  | num (n : Int)
  | bool (b : Bool)
  | null
  | undef
deriving Repr, DecidableEq

/-- JavaScript truthiness (`!v` negated): `""`, `0`, `false`, `null` and
`undefined` are falsy, everything else here is truthy. -/
def JsVal.truthy : JsVal → Bool
  | .str s => s != ""
  | .num n => n != 0
  | .bool b => b
  | .null => false
  | .undef => false

/-- The whitespace characters relevant to JS `String.prototype.trim` and
the regex class `\s` (ASCII subset; the source data never carries the
exotic Unicode space characters). -/
def jsIsSpace (c : Char) : Bool :=
  c == ' ' || c == '\t' || c == '\n' || c == '\r' || c == '\x0b' || c == '\x0c'

/-- JS `String.prototype.trim`: strip leading and trailing whitespace. -/
def jsTrim (s : String) : String :=
  ⟨((s.data.dropWhile jsIsSpace).reverse.dropWhile jsIsSpace).reverse⟩

/-- JS `String.prototype.toLowerCase` (ASCII behaviour). -/
def jsToLower (s : String) : String :=
  ⟨s.data.map Char.toLower⟩

/-- JS `String(v)` coercion, as performed by `RegExp.prototype.test` on a
non-string argument. -/
def JsVal.toJsString : JsVal → String
  | .str s => s
  | .num n => toString n
  | .bool b => if b then "true" else "false"
  | .null => "null"
  | .undef => "undefined"

/-- A character admitted by the regex class `[^\s@]`. -/
def emailChar (c : Char) : Bool :=
  !jsIsSpace c && c != '@'

/-- `cs` has a `'.'` at some index `i` with `1 ≤ i ≤ cs.length - 2`,
i.e. `cs` splits as `m ++ "." ++ r` with `m`, `r` non-empty. -/
def hasInteriorDot (cs : List Char) : Bool :=
  ((cs.drop 1).dropLast).contains '.'

/-- Matching of the anchored regex `^[^\s@]+@[^\s@]+\.[^\s@]+$` from
`isValidEmail` in `src/server.js`.  A string matches iff it decomposes as
`l ++ "@" ++ m ++ "." ++ r` with `l`, `m`, `r` non-empty and free of
whitespace and `'@'` (so the string has exactly one `'@'`; `m` and `r`
may contain further dots).  Equivalently: the part before the first `'@'`
is non-empty and clean, the part after it is non-empty, clean, and has a
dot that is neither its first nor its last character. -/
def emailRegexMatch (cs : List Char) : Bool :=
  let lpart := cs.takeWhile (fun c => c != '@')
  match cs.dropWhile (fun c => c != '@') with
  | '@' :: dom =>
      !lpart.isEmpty && lpart.all emailChar &&
      !dom.isEmpty && dom.all emailChar && hasInteriorDot dom
  | _ => false

/-- `isValidEmail` from `src/server.js`: `emailRegex.test(email)`, applied
to the raw request value (coerced to a string when it is not one). -/
def isValidEmail (email : JsVal) : Bool :=
  emailRegexMatch email.toJsString.data

/-- A feedback record as created by `POST /feedback`. -/
structure Feedback where
  id : String
  name : String
  email : String
  message : String
  votes : Int
  createdAt : String
deriving Repr, DecidableEq

/-- Server state: the in-memory `feedbackStore` array and the parsed
contents of the data file (`DATA_FILE`). -/
structure ServerState where
  store : List Feedback
  disk : List Feedback
deriving Repr, DecidableEq

/-- Response of `GET /feedback` (its `catch` is unreachable: the handler
body cannot throw, so only the success shape occurs). -/
structure ListResponse where
  status : Nat
  success : Bool
  data : List Feedback
  count : Nat
deriving Repr, DecidableEq

/-- Response envelope of the mutating routes (`POST`, `PUT`, `DELETE`). -/
structure MutResponse where
  status : Nat
  success : Bool
  message : Option String
  data : Option Feedback
  error : Option String
deriving Repr, DecidableEq

/-- Stable insertion of `r` into a votes-descending list: `r` is placed
before the first element whose votes do not exceed `r`'s.  When `r`
precedes the list elements in the original order (as in `sortByVotesDesc`),
ties keep that original order. -/
def insertByVotes (r : Feedback) : List Feedback → List Feedback
  | [] => [r]
  | x :: xs =>
      if x.votes ≤ r.votes then r :: x :: xs else x :: insertByVotes r xs

/-- The stable sort by votes descending performed by
`[...feedbackStore].sort((a, b) => b.votes - a.votes)`. -/
def sortByVotesDesc : List Feedback → List Feedback
  | [] => []
  | x :: xs => insertByVotes x (sortByVotesDesc xs)

/-- `GET /feedback`: sorts a copy of the store; the store itself is not
modified and nothing is persisted. -/
def getFeedback (st : ServerState) : ListResponse × ServerState :=
  let sortedFeedback := sortByVotesDesc st.store
  ({ status := 200, success := true, data := sortedFeedback,
     count := sortedFeedback.length }, st)

def requiredMsg : String := "Name, email, and message are required fields"

def emailMsg : String := "Please provide a valid email address"

def lengthMsg : String := "Feedback message must be at least 5 characters long"

def actionMsg : String := "Action must be either \"upvote\" or \"downvote\""

def notFoundMsg : String := "Feedback not found"

/-- V8's `TypeError` text when `message.trim()` is called on a
non-string, surfaced raw via `error.message` in the route's catch. -/
def msgTrimError : String := "message.trim is not a function"

/-- V8's `TypeError` text when `name.trim()` is called on a non-string. -/
def nameTrimError : String := "name.trim is not a function"

/-- `POST /feedback`.  Validation order: required fields (truthiness),
email format on the raw value, trimmed message length; then the record is
built (trimming throws on a non-string `name`), pushed, and persisted.
A `saveFeedbackData` failure is caught after the push, so the store keeps
the new record while the disk does not. -/
def postFeedback (st : ServerState) (name email message : JsVal)
    (newId createdAt : String) (saveErr : Option String) :
    MutResponse × ServerState :=
  if !(name.truthy && email.truthy && message.truthy) then
    ({ status := 400, success := false, message := some requiredMsg,
       data := none, error := none }, st)
  else if !isValidEmail email then
    ({ status := 400, success := false, message := some emailMsg,
       data := none, error := none }, st)
  else
    match message with
    | .str msg =>
        if (jsTrim msg).length < 5 then
          ({ status := 400, success := false, message := some lengthMsg,
             data := none, error := none }, st)
        else
          match name with
          | .str nm =>
              let newFeedback : Feedback :=
                { id := newId, name := jsTrim nm,
                  email := jsToLower (jsTrim email.toJsString),
                  message := jsTrim msg, votes := 0, createdAt := createdAt }
              let st' := { st with store := st.store ++ [newFeedback] }
              match saveErr with
              | none =>
                  ({ status := 201, success := true,
                     message := some "Feedback submitted successfully",
                     data := some newFeedback, error := none },
                   { st' with disk := st'.store })
              | some e =>
                  ({ status := 500, success := false,
                     message := some "Error creating feedback",
                     data := none, error := some e }, st')
          | _ =>
              ({ status := 500, success := false,
                 message := some "Error creating feedback",
                 data := none, error := some nameTrimError }, st)
    | _ =>
        ({ status := 500, success := false,
           message := some "Error creating feedback",
           data := none, error := some msgTrimError }, st)

/-- The guard `!action || !['upvote','downvote'].includes(action)` of the
vote route: `includes` compares with SameValueZero, so only the exact
strings qualify (which are truthy, subsuming the `!action` test). -/
def validAction (action : JsVal) : Bool :=
  action.truthy &&
    (action == JsVal.str "upvote" || action == JsVal.str "downvote")

/-- `feedbackStore.find(item => item.id === id)`. -/
def findById (id : String) : List Feedback → Option Feedback
  | [] => none
  | x :: xs => if x.id = id then some x else findById id xs

/-- In-place mutation of the first record with the given id, as performed
through the reference returned by `find`. -/
def updateFirstById (id : String) (g : Feedback → Feedback) :
    List Feedback → List Feedback
  | [] => []
  | x :: xs => if x.id = id then g x :: xs else x :: updateFirstById id g xs

/-- `PUT /feedback/:id/vote`: validates the action, then looks the record
up, then adjusts its votes by `+1` (`upvote`) or `-1` (`downvote`) with
no bounds, then persists. -/
def voteFeedback (st : ServerState) (id : String) (action : JsVal)
    (saveErr : Option String) : MutResponse × ServerState :=
  if !validAction action then
    ({ status := 400, success := false, message := some actionMsg,
       data := none, error := none }, st)
  else
    match findById id st.store with
    | none =>
        ({ status := 404, success := false, message := some notFoundMsg,
           data := none, error := none }, st)
    | some f =>
        let f' := if action == JsVal.str "upvote" then
                    { f with votes := f.votes + 1 }
                  else
                    { f with votes := f.votes - 1 }
        let g : Feedback → Feedback := fun x =>
          if action == JsVal.str "upvote" then { x with votes := x.votes + 1 }
          else { x with votes := x.votes - 1 }
        let st' := { st with store := updateFirstById id g st.store }
        match saveErr with
        | none =>
            ({ status := 200, success := true,
               message := some ("Feedback " ++ action.toJsString ++
                                "d successfully"),
               data := some f', error := none },
             { st' with disk := st'.store })
        | some e =>
            ({ status := 500, success := false,
               message := some "Error updating vote",
               data := none, error := some e }, st')

/-- `feedbackStore.splice(feedbackIndex, 1)[0]` after
`findIndex(item => item.id === id)`: removes and returns the first record
with the given id. -/
def removeFirstById (id : String) :
    List Feedback → Option (Feedback × List Feedback)
  | [] => none
  | x :: xs =>
      if x.id = id then some (x, xs)
      else
        match removeFirstById id xs with
        | none => none
        | some (r, ys) => some (r, x :: ys)

/-- `DELETE /feedback/:id`: 404 when the id is absent; otherwise removes
the record, persists, and returns the removed record. -/
def deleteFeedback (st : ServerState) (id : String)
    (saveErr : Option String) : MutResponse × ServerState :=
  match removeFirstById id st.store with
  | none =>
      ({ status := 404, success := false, message := some notFoundMsg,
         data := none, error := none }, st)
  | some (deleted, rest) =>
      let st' := { st with store := rest }
      match saveErr with
      | none =>
          ({ status := 200, success := true,
             message := some "Feedback deleted successfully",
             data := some deleted, error := none },
           { st' with disk := st'.store })
      | some e =>
          ({ status := 500, success := false,
             message := some "Error deleting feedback",
             data := none, error := some e }, st')

/-! ## Lemmas about the stable sort -/

theorem insertByVotes_perm (r : Feedback) (l : List Feedback) :
    List.Perm (insertByVotes r l) (r :: l) := by
  induction l with
  | nil => exact List.Perm.refl _
  | cons x xs ih =>
      simp only [insertByVotes]
      split
      · exact List.Perm.refl _
      · exact (ih.cons x).trans (List.Perm.swap r x xs)

theorem sortByVotesDesc_perm (l : List Feedback) :
    List.Perm (sortByVotesDesc l) l := by
  induction l with
  | nil => exact List.Perm.refl _
  | cons x xs ih =>
      exact (insertByVotes_perm x (sortByVotesDesc xs)).trans (ih.cons x)

theorem insertByVotes_pairwise (r : Feedback) (l : List Feedback)
    (h : l.Pairwise (fun a b => b.votes ≤ a.votes)) :
    (insertByVotes r l).Pairwise (fun a b => b.votes ≤ a.votes) := by
  induction l with
  | nil => simp [insertByVotes]
  | cons x xs ih =>
      simp only [insertByVotes]
      split
      case isTrue hle =>
          refine List.Pairwise.cons ?_ h
          intro y hy
          rcases List.mem_cons.mp hy with hy | hy
          · exact hy ▸ hle
          · exact le_trans (List.rel_of_pairwise_cons h hy) hle
      case isFalse hgt =>
          refine List.Pairwise.cons ?_ (ih (List.Pairwise.of_cons h))
          intro y hy
          rcases List.mem_cons.mp
              ((insertByVotes_perm r xs).mem_iff.mp hy) with hy | hy
          · exact hy ▸ le_of_lt (lt_of_not_le hgt)
          · exact List.rel_of_pairwise_cons h hy

theorem sortByVotesDesc_pairwise (l : List Feedback) :
    (sortByVotesDesc l).Pairwise (fun a b => b.votes ≤ a.votes) := by
  induction l with
  | nil => simp [sortByVotesDesc]
  | cons x xs ih => exact insertByVotes_pairwise x _ ih

theorem filter_insertByVotes_eq (r : Feedback) (l : List Feedback) (v : Int)
    (hv : r.votes = v) :
    (insertByVotes r l).filter (fun x => x.votes == v) =
      r :: l.filter (fun x => x.votes == v) := by
  induction l with
  | nil => simp [insertByVotes, List.filter_cons, hv]
  | cons x xs ih =>
      simp only [insertByVotes]
      split
      case isTrue hle => simp [List.filter_cons, hv]
      case isFalse hgt =>
          have hx : x.votes ≠ v := fun hxy =>
            hgt (le_of_eq (hxy.trans hv.symm))
          simp [List.filter_cons, hx, ih]

theorem filter_insertByVotes_ne (r : Feedback) (l : List Feedback) (v : Int)
    (hv : r.votes ≠ v) :
    (insertByVotes r l).filter (fun x => x.votes == v) =
      l.filter (fun x => x.votes == v) := by
  induction l with
  | nil => simp [insertByVotes, List.filter_cons, hv]
  | cons x xs ih =>
      simp only [insertByVotes]
      split
      case isTrue hle => simp [List.filter_cons, hv]
      case isFalse hgt => simp [List.filter_cons, ih]

theorem filter_sortByVotesDesc (l : List Feedback) (v : Int) :
    (sortByVotesDesc l).filter (fun x => x.votes == v) =
      l.filter (fun x => x.votes == v) := by
  induction l with
  | nil => simp [sortByVotesDesc]
  | cons x xs ih =>
      by_cases hx : x.votes = v
      · rw [sortByVotesDesc, filter_insertByVotes_eq x _ v hx, ih,
            List.filter_cons]
        simp [hx]
      · rw [sortByVotesDesc, filter_insertByVotes_ne x _ v hx, ih,
            List.filter_cons]
        simp [hx]

/-- C1: `GET /feedback` answers 200 / `success: true`; `data` is the full
collection reordered by votes descending (a permutation of the store with
pairwise non-increasing votes, and — stability — the records of each
fixed vote count appear exactly in their original insertion order);
`count` is the length of that list; and the handler leaves the server
state (store and disk) exactly as it was. -/
theorem getFeedback_sorted_spec (st : ServerState) :
    (getFeedback st).1.status = 200 ∧
    (getFeedback st).1.success = true ∧
    List.Perm (getFeedback st).1.data st.store ∧
    (getFeedback st).1.data.Pairwise (fun a b => b.votes ≤ a.votes) ∧
    (∀ v : Int, (getFeedback st).1.data.filter (fun x => x.votes == v) =
      st.store.filter (fun x => x.votes == v)) ∧
    (getFeedback st).1.count = (getFeedback st).1.data.length ∧
    (getFeedback st).2 = st :=
  ⟨rfl, rfl, sortByVotesDesc_perm st.store, sortByVotesDesc_pairwise st.store,
   fun v => filter_sortByVotesDesc st.store v, rfl, rfl⟩

/-! ## Lemmas about lookup, in-place update and removal -/

theorem findById_append (pre post : List Feedback) (f : Feedback)
    (i : String) (hpre : ∀ x ∈ pre, x.id ≠ i) (hf : f.id = i) :
    findById i (pre ++ f :: post) = some f := by
  induction pre with
  | nil => simp [findById, hf]
  | cons x xs ih =>
      simp only [List.cons_append, findById]
      rw [if_neg (hpre x (List.mem_cons_self x xs))]
      exact ih (fun y hy => hpre y (List.mem_cons_of_mem x hy))

theorem findById_eq_none (l : List Feedback) (i : String)
    (h : ∀ x ∈ l, x.id ≠ i) : findById i l = none := by
  induction l with
  | nil => rfl
  | cons x xs ih =>
      simp only [findById]
      rw [if_neg (h x (List.mem_cons_self x xs))]
      exact ih (fun y hy => h y (List.mem_cons_of_mem x hy))

theorem updateFirstById_append (g : Feedback → Feedback)
    (pre post : List Feedback) (f : Feedback) (i : String)
    (hpre : ∀ x ∈ pre, x.id ≠ i) (hf : f.id = i) :
    updateFirstById i g (pre ++ f :: post) = pre ++ g f :: post := by
  induction pre with
  | nil => simp [updateFirstById, hf]
  | cons x xs ih =>
      simp only [List.cons_append, updateFirstById, List.append_eq]
      rw [if_neg (hpre x (List.mem_cons_self x xs)),
          ih (fun y hy => hpre y (List.mem_cons_of_mem x hy))]

theorem removeFirstById_append (pre post : List Feedback) (f : Feedback)
    (i : String) (hpre : ∀ x ∈ pre, x.id ≠ i) (hf : f.id = i) :
    removeFirstById i (pre ++ f :: post) = some (f, pre ++ post) := by
  induction pre with
  | nil => simp [removeFirstById, hf]
  | cons x xs ih =>
      simp only [List.cons_append, removeFirstById, List.append_eq]
      rw [if_neg (hpre x (List.mem_cons_self x xs)),
          ih (fun y hy => hpre y (List.mem_cons_of_mem x hy))]

theorem removeFirstById_eq_none (l : List Feedback) (i : String)
    (h : ∀ x ∈ l, x.id ≠ i) : removeFirstById i l = none := by
  induction l with
  | nil => rfl
  | cons x xs ih =>
      simp only [removeFirstById]
      rw [if_neg (h x (List.mem_cons_self x xs)),
          ih (fun y hy => h y (List.mem_cons_of_mem x hy))]

theorem validAction_upvote : validAction (JsVal.str "upvote") = true := by
  decide

theorem validAction_downvote : validAction (JsVal.str "downvote") = true := by
  decide

/-- A sample stored record used to instantiate hypothesis-bearing
theorems at concrete inputs. -/
def sampleRec : Feedback :=
  { id := "id1", name := "Ann", email := "ann@ex.com",
    message := "great stuff", votes := 2,
    createdAt := "2024-01-01T00:00:00.000Z" }

/-- C2: when the `fs.writeFile` in `saveFeedbackData` fails (modelled by
`saveErr = some e`) during a create, vote, or delete, the route answers
500 with the raw error text, yet the in-memory store has already been
mutated — it holds the appended / vote-adjusted / shortened collection —
while the disk keeps its previous contents; if memory and disk agreed
before the request, they disagree after the error response. -/
theorem saveFailure_mutates_memory_only (st : ServerState) (e : String)
    (nm em msg newId createdAt : String)
    (hn : (JsVal.str nm).truthy = true)
    (he : (JsVal.str em).truthy = true)
    (hm : (JsVal.str msg).truthy = true)
    (hemail : isValidEmail (JsVal.str em) = true)
    (hlen : ¬(jsTrim msg).length < 5)
    (pre post : List Feedback) (f : Feedback) (i : String)
    (hpre : ∀ x ∈ pre, x.id ≠ i) (hf : f.id = i)
    (hst : st.store = pre ++ f :: post)
    (hsync : st.disk = st.store) :
    (postFeedback st (.str nm) (.str em) (.str msg) newId createdAt
        (some e) =
      ({ status := 500, success := false,
         message := some "Error creating feedback",
         data := none, error := some e },
       { store := st.store ++
           [{ id := newId, name := jsTrim nm,
              email := jsToLower (jsTrim em), message := jsTrim msg,
              votes := 0, createdAt := createdAt }],
         disk := st.disk })) ∧
    st.store ++
        [{ id := newId, name := jsTrim nm, email := jsToLower (jsTrim em),
           message := jsTrim msg, votes := 0, createdAt := createdAt }] ≠
      st.disk ∧
    (voteFeedback st i (.str "upvote") (some e) =
      ({ status := 500, success := false,
         message := some "Error updating vote",
         data := none, error := some e },
       { store := pre ++ { f with votes := f.votes + 1 } :: post,
         disk := st.disk })) ∧
    pre ++ { f with votes := f.votes + 1 } :: post ≠ st.disk ∧
    (deleteFeedback st i (some e) =
      ({ status := 500, success := false,
         message := some "Error deleting feedback",
         data := none, error := some e },
       { store := pre ++ post, disk := st.disk })) ∧
    pre ++ post ≠ st.disk := by
  refine ⟨?_, ?_, ?_, ?_, ?_, ?_⟩
  · simp [postFeedback, hn, he, hm, hemail, hlen, JsVal.toJsString]
  · rw [hsync]
    intro hEq
    have hL := congrArg List.length hEq
    simp at hL
  · simp only [voteFeedback, validAction_upvote, Bool.not_true,
      Bool.false_eq_true, if_false, hst,
      findById_append pre post f i hpre hf]
    rw [updateFirstById_append _ pre post f i hpre hf]
    simp
  · rw [hsync, hst]
    intro hEq
    have hC := List.append_cancel_left hEq
    have hV := congrArg Feedback.votes (List.head_eq_of_cons_eq hC)
    simp at hV
  · simp only [deleteFeedback, hst,
      removeFirstById_append pre post f i hpre hf]
  · rw [hsync, hst]
    intro hEq
    have hL := congrArg List.length hEq
    simp at hL

/-- Witness for C2 at concrete inputs: one stored record, each mutating
route with a failing write. -/
theorem saveFailure_mutates_memory_only_witness :
    (postFeedback ⟨[sampleRec], [sampleRec]⟩ (JsVal.str "Bob")
        (JsVal.str "bob@ex.com") (JsVal.str "hello world") "id2" "t2"
        (some "disk full")).1.status = 500 ∧
    (voteFeedback ⟨[sampleRec], [sampleRec]⟩ "id1" (JsVal.str "upvote")
        (some "disk full")).2.store = [{ sampleRec with votes := 3 }] ∧
    (deleteFeedback ⟨[sampleRec], [sampleRec]⟩ "id1"
        (some "disk full")).2 = ⟨[], [sampleRec]⟩ := by
  have h := saveFailure_mutates_memory_only ⟨[sampleRec], [sampleRec]⟩
      "disk full" "Bob" "bob@ex.com" "hello world" "id2" "t2"
      (by decide) (by decide) (by decide) (by decide) (by decide)
      [] [] sampleRec "id1" (by simp) rfl rfl rfl
  refine ⟨?_, ?_, ?_⟩
  · rw [h.1]
  · rw [h.2.2.1]
    decide
  · rw [h.2.2.2.2.1]
    rfl

/-- C3 counterexample: the required-fields guard tests JS truthiness, so
the whitespace-only name `" "` (truthy, but empty after trimming) is NOT
rejected: the request succeeds with 201 and the stored record's name is
the empty string — refuting both the rejection and the non-emptiness
halves of the claim. -/
theorem post_blankName_accepted_201 :
    jsTrim " " = "" ∧
    (postFeedback ⟨[], []⟩ (JsVal.str " ") (JsVal.str "a@b.c")
        (JsVal.str "hello") "id1" "t1" none).1.status = 201 ∧
    (postFeedback ⟨[], []⟩ (JsVal.str " ") (JsVal.str "a@b.c")
        (JsVal.str "hello") "id1" "t1" none).2.store =
      [{ id := "id1", name := "", email := "a@b.c", message := "hello",
         votes := 0, createdAt := "t1" }] := by
  decide

/-- C3 amended: `POST /feedback` rejects the name with 400 (leaving the
state unchanged) exactly when it is falsy — the empty string — and every
record stored by a successful POST carries the *trimmed* submitted name,
which may itself be empty when the submitted name was whitespace-only;
non-emptiness of the stored name is not guaranteed. -/
theorem post_name_empty_check (st : ServerState)
    (name email message : JsVal) (newId createdAt : String)
    (saveErr : Option String) :
    (name = JsVal.str "" →
      postFeedback st name email message newId createdAt saveErr =
        ({ status := 400, success := false, message := some requiredMsg,
           data := none, error := none }, st)) ∧
    ((postFeedback st name email message newId createdAt saveErr).1.status
        = 201 →
      ∃ s r, name = JsVal.str s ∧
        (postFeedback st name email message newId createdAt
            saveErr).2.store = st.store ++ [r] ∧
        r.name = jsTrim s) := by
  constructor
  · intro hname
    subst hname
    simp [postFeedback, JsVal.truthy]
  · unfold postFeedback
    split
    · intro h; simp at h
    · split
      · intro h; simp at h
      · split
        · split
          · intro h; simp at h
          · split
            · split
              · intro _
                exact ⟨_, _, rfl, rfl, rfl⟩
              · intro h; simp at h
            · intro h; simp at h
        · intro h; simp at h

/-- Witness for C3's amended theorem: the empty name is rejected. -/
theorem post_name_empty_check_witness :
    postFeedback ⟨[], []⟩ (JsVal.str "") (JsVal.str "a@b.c")
        (JsVal.str "hello") "id1" "t1" none =
      ({ status := 400, success := false, message := some requiredMsg,
         data := none, error := none }, ⟨[], []⟩) :=
  (post_name_empty_check ⟨[], []⟩ (JsVal.str "") (JsVal.str "a@b.c")
      (JsVal.str "hello") "id1" "t1" none).1 rfl

/-- C4 counterexample: the email `" a@b.c"` (leading space) normalizes —
trim then lowercase — to `"a@b.c"`, which matches the pattern, yet the
code rejects the request with the email-format 400, because
`isValidEmail` is applied to the raw value: the claimed
"accepts exactly when the normalized form matches" is false here. -/
theorem post_email_checked_raw_counterexample :
    emailRegexMatch (jsToLower (jsTrim " a@b.c")).data = true ∧
    (postFeedback ⟨[], []⟩ (JsVal.str "Bob") (JsVal.str " a@b.c")
        (JsVal.str "hello") "id1" "t1" none).1 =
      { status := 400, success := false, message := some emailMsg,
        data := none, error := none } ∧
    (postFeedback ⟨[], []⟩ (JsVal.str "Bob") (JsVal.str " a@b.c")
        (JsVal.str "hello") "id1" "t1" none).2 = ⟨[], []⟩ := by
  decide

/-- C4 amended: the email format check runs on the RAW submitted email:
with the other fields valid, a string email is accepted (201) exactly
when the raw string matches the pattern; on acceptance the stored email
is the trimmed, lowercased form of the submitted one. -/
theorem post_email_raw_spec (st : ServerState)
    (nm em msg newId createdAt : String)
    (hn : (JsVal.str nm).truthy = true)
    (he : (JsVal.str em).truthy = true)
    (hm : (JsVal.str msg).truthy = true)
    (hlen : ¬(jsTrim msg).length < 5) :
    ((postFeedback st (.str nm) (.str em) (.str msg) newId createdAt
        none).1.status = 201 ↔ emailRegexMatch em.data = true) ∧
    (emailRegexMatch em.data = true →
      postFeedback st (.str nm) (.str em) (.str msg) newId createdAt
          none =
        ({ status := 201, success := true,
           message := some "Feedback submitted successfully",
           data := some { id := newId, name := jsTrim nm,
                          email := jsToLower (jsTrim em),
                          message := jsTrim msg, votes := 0,
                          createdAt := createdAt },
           error := none },
         { store := st.store ++
             [{ id := newId, name := jsTrim nm,
                email := jsToLower (jsTrim em), message := jsTrim msg,
                votes := 0, createdAt := createdAt }],
           disk := st.store ++
             [{ id := newId, name := jsTrim nm,
                email := jsToLower (jsTrim em), message := jsTrim msg,
                votes := 0, createdAt := createdAt }] })) ∧
    (emailRegexMatch em.data = false →
      postFeedback st (.str nm) (.str em) (.str msg) newId createdAt
          none =
        ({ status := 400, success := false, message := some emailMsg,
           data := none, error := none }, st)) := by
  by_cases hem : emailRegexMatch em.data = true
  · have hv : isValidEmail (JsVal.str em) = true := hem
    refine ⟨?_, fun _ => ?_, fun hF => absurd hem (by simp [hF])⟩
    · constructor
      · intro _; exact hem
      · intro _; simp [postFeedback, hn, he, hm, hv, hlen, JsVal.toJsString]
    · simp [postFeedback, hn, he, hm, hv, hlen, JsVal.toJsString]
  · have hv : isValidEmail (JsVal.str em) = false := by
      simpa [isValidEmail, JsVal.toJsString] using hem
    refine ⟨?_, fun hT => absurd hT hem, fun _ => ?_⟩
    · constructor
      · intro h201
        exfalso
        have : (postFeedback st (.str nm) (.str em) (.str msg) newId
            createdAt none).1.status = 400 := by
          simp [postFeedback, hn, he, hm, hv]
        rw [this] at h201
        simp at h201
      · intro hT; exact absurd hT hem
    · simp [postFeedback, hn, he, hm, hv]

/-- Witness for C4's amended theorem: a matching raw email is accepted
and stored lowercased. -/
theorem post_email_raw_spec_witness :
    postFeedback ⟨[], []⟩ (JsVal.str "Bob") (JsVal.str "Bob@Ex.COM")
        (JsVal.str "hello") "id1" "t1" none =
      ({ status := 201, success := true,
         message := some "Feedback submitted successfully",
         data := some { id := "id1", name := "Bob",
                        email := "bob@ex.com", message := "hello",
                        votes := 0, createdAt := "t1" },
         error := none },
       { store := [{ id := "id1", name := "Bob", email := "bob@ex.com",
                     message := "hello", votes := 0, createdAt := "t1" }],
         disk := [{ id := "id1", name := "Bob", email := "bob@ex.com",
                    message := "hello", votes := 0,
                    createdAt := "t1" }] }) := by
  have h := (post_email_raw_spec ⟨[], []⟩ "Bob" "Bob@Ex.COM" "hello"
      "id1" "t1" (by decide) (by decide) (by decide) (by decide)).2.1
      (by decide)
  rw [h]
  decide

/-- C5: every created record starts with `votes = 0`, and
`PUT /feedback/:id/vote` on an existing id adjusts exactly that record's
votes by `+1` on `"upvote"` and `-1` on `"downvote"`; votes live in `ℤ`
with no clamping, so each further downvote subtracts 1 and the count goes
below zero. -/
theorem votes_init_and_delta (st : ServerState)
    (nm em msg newId createdAt : String)
    (hn : (JsVal.str nm).truthy = true)
    (he : (JsVal.str em).truthy = true)
    (hm : (JsVal.str msg).truthy = true)
    (hemail : isValidEmail (JsVal.str em) = true)
    (hlen : ¬(jsTrim msg).length < 5)
    (pre post : List Feedback) (f : Feedback) (i : String)
    (hpre : ∀ x ∈ pre, x.id ≠ i) (hf : f.id = i)
    (hst : st.store = pre ++ f :: post) :
    ((postFeedback st (.str nm) (.str em) (.str msg) newId createdAt
        none).1.data =
      some { id := newId, name := jsTrim nm,
             email := jsToLower (jsTrim em), message := jsTrim msg,
             votes := 0, createdAt := createdAt }) ∧
    ((postFeedback st (.str nm) (.str em) (.str msg) newId createdAt
        none).2.store =
      st.store ++
        [{ id := newId, name := jsTrim nm,
           email := jsToLower (jsTrim em), message := jsTrim msg,
           votes := 0, createdAt := createdAt }]) ∧
    (voteFeedback st i (.str "upvote") none =
      ({ status := 200, success := true,
         message := some "Feedback upvoted successfully",
         data := some { f with votes := f.votes + 1 }, error := none },
       { store := pre ++ { f with votes := f.votes + 1 } :: post,
         disk := pre ++ { f with votes := f.votes + 1 } :: post })) ∧
    (voteFeedback st i (.str "downvote") none =
      ({ status := 200, success := true,
         message := some "Feedback downvoted successfully",
         data := some { f with votes := f.votes - 1 }, error := none },
       { store := pre ++ { f with votes := f.votes - 1 } :: post,
         disk := pre ++ { f with votes := f.votes - 1 } :: post })) := by
  refine ⟨?_, ?_, ?_, ?_⟩
  · simp [postFeedback, hn, he, hm, hemail, hlen, JsVal.toJsString]
  · simp [postFeedback, hn, he, hm, hemail, hlen, JsVal.toJsString]
  · simp only [voteFeedback, validAction_upvote, Bool.not_true,
      Bool.false_eq_true, if_false, hst,
      findById_append pre post f i hpre hf]
    rw [updateFirstById_append _ pre post f i hpre hf]
    simp [JsVal.toJsString]
  · simp only [voteFeedback, validAction_downvote, Bool.not_true,
      Bool.false_eq_true, if_false, hst,
      findById_append pre post f i hpre hf]
    rw [updateFirstById_append _ pre post f i hpre hf]
    simp [JsVal.toJsString]

/-- Witness for C5: fresh record created with 0 votes; a downvote on the
sample record (2 votes) stores 1; a downvote on a 0-vote record goes to
−1. -/
theorem votes_init_and_delta_witness :
    (postFeedback ⟨[sampleRec], [sampleRec]⟩ (JsVal.str "Bob")
        (JsVal.str "bob@ex.com") (JsVal.str "hello") "id2" "t2"
        none).1.data =
      some { id := "id2", name := "Bob", email := "bob@ex.com",
             message := "hello", votes := 0, createdAt := "t2" } ∧
    (voteFeedback ⟨[{ sampleRec with votes := 0 }],
        [{ sampleRec with votes := 0 }]⟩ "id1" (JsVal.str "downvote")
        none).2.store = [{ sampleRec with votes := -1 }] := by
  have h1 := votes_init_and_delta ⟨[sampleRec], [sampleRec]⟩
      "Bob" "bob@ex.com" "hello" "id2" "t2"
      (by decide) (by decide) (by decide) (by decide) (by decide)
      [] [] sampleRec "id1" (by simp) rfl rfl
  have h2 := votes_init_and_delta
      ⟨[{ sampleRec with votes := 0 }], [{ sampleRec with votes := 0 }]⟩
      "Bob" "bob@ex.com" "hello" "id2" "t2"
      (by decide) (by decide) (by decide) (by decide) (by decide)
      [] [] { sampleRec with votes := 0 } "id1" (by simp) rfl rfl
  constructor
  · rw [h1.1]
    decide
  · rw [h2.2.2.2]
    decide

/-- C6: a vote with a valid action and a delete that both target an id
absent from the collection answer 404 with `success: false` and return
the server state — store and disk — exactly unchanged. -/
theorem unknown_id_404_unchanged (st : ServerState) (i : String)
    (saveErr : Option String) (action : JsVal)
    (hid : ∀ x ∈ st.store, x.id ≠ i)
    (hact : validAction action = true) :
    voteFeedback st i action saveErr =
      ({ status := 404, success := false, message := some notFoundMsg,
         data := none, error := none }, st) ∧
    deleteFeedback st i saveErr =
      ({ status := 404, success := false, message := some notFoundMsg,
         data := none, error := none }, st) := by
  constructor
  · simp only [voteFeedback, hact, Bool.not_true, Bool.false_eq_true,
      if_false, findById_eq_none st.store i hid]
  · simp only [deleteFeedback, removeFirstById_eq_none st.store i hid]

/-- Witness for C6: a store holding one record with a different id. -/
theorem unknown_id_404_unchanged_witness :
    voteFeedback ⟨[sampleRec], [sampleRec]⟩ "ghost" (JsVal.str "upvote")
        none =
      ({ status := 404, success := false, message := some notFoundMsg,
         data := none, error := none }, ⟨[sampleRec], [sampleRec]⟩) ∧
    deleteFeedback ⟨[sampleRec], [sampleRec]⟩ "ghost" none =
      ({ status := 404, success := false, message := some notFoundMsg,
         data := none, error := none }, ⟨[sampleRec], [sampleRec]⟩) :=
  unknown_id_404_unchanged ⟨[sampleRec], [sampleRec]⟩ "ghost" none
    (JsVal.str "upvote") (by decide) (by decide)

/-- C7 counterexample: `message = ""` is a string whose trimmed length
(0) is below 5, yet the response is the required-fields 400, not the
length-specific message, because the truthiness guard runs first — so
"every POST whose string message has trimmed length < 5 gets the
length-specific message" is false. -/
theorem post_short_message_wrong_branch :
    (jsTrim "").length < 5 ∧
    (postFeedback ⟨[], []⟩ (JsVal.str "Bob") (JsVal.str "bob@ex.com")
        (JsVal.str "") "id1" "t1" none).1 =
      { status := 400, success := false, message := some requiredMsg,
        data := none, error := none } ∧
    requiredMsg ≠ lengthMsg := by
  decide

/-- C7 amended: for a POST whose name, email and message are truthy and
whose email passes the format check, a trimmed message length below 5
yields 400 with the length-specific message and an unchanged state
(whatever the persistence outcome would have been), while a trimmed
length of exactly 5 is accepted: 201 with the created record echoed in
`data`. -/
theorem post_message_length_spec (st : ServerState)
    (nm em msg newId createdAt : String) (saveErr : Option String)
    (hn : (JsVal.str nm).truthy = true)
    (he : (JsVal.str em).truthy = true)
    (hm : (JsVal.str msg).truthy = true)
    (hemail : isValidEmail (JsVal.str em) = true) :
    ((jsTrim msg).length < 5 →
      postFeedback st (.str nm) (.str em) (.str msg) newId createdAt
          saveErr =
        ({ status := 400, success := false, message := some lengthMsg,
           data := none, error := none }, st)) ∧
    ((jsTrim msg).length = 5 →
      postFeedback st (.str nm) (.str em) (.str msg) newId createdAt
          none =
        ({ status := 201, success := true,
           message := some "Feedback submitted successfully",
           data := some { id := newId, name := jsTrim nm,
                          email := jsToLower (jsTrim em),
                          message := jsTrim msg, votes := 0,
                          createdAt := createdAt },
           error := none },
         { store := st.store ++
             [{ id := newId, name := jsTrim nm,
                email := jsToLower (jsTrim em), message := jsTrim msg,
                votes := 0, createdAt := createdAt }],
           disk := st.store ++
             [{ id := newId, name := jsTrim nm,
                email := jsToLower (jsTrim em), message := jsTrim msg,
                votes := 0, createdAt := createdAt }] })) := by
  constructor
  · intro hlt
    simp [postFeedback, hn, he, hm, hemail, hlt]
  · intro h5
    have hge : ¬(jsTrim msg).length < 5 := by omega
    simp [postFeedback, hn, he, hm, hemail, hge, JsVal.toJsString]

/-- Witness for C7's amended theorem: `"hi"` (length 2) rejected with
the length message, `"hello"` (length 5) accepted with 201. -/
theorem post_message_length_spec_witness :
    (postFeedback ⟨[], []⟩ (JsVal.str "Bob") (JsVal.str "bob@ex.com")
        (JsVal.str "hi") "id1" "t1" none).1 =
      { status := 400, success := false, message := some lengthMsg,
        data := none, error := none } ∧
    (postFeedback ⟨[], []⟩ (JsVal.str "Bob") (JsVal.str "bob@ex.com")
        (JsVal.str "hello") "id1" "t1" none).1.status = 201 := by
  have hA := (post_message_length_spec ⟨[], []⟩ "Bob" "bob@ex.com" "hi"
      "id1" "t1" none (by decide) (by decide) (by decide) (by decide)).1
      (by decide)
  have hB := (post_message_length_spec ⟨[], []⟩ "Bob" "bob@ex.com"
      "hello" "id1" "t1" none (by decide) (by decide) (by decide)
      (by decide)).2 (by decide)
  exact ⟨by rw [hA], by rw [hB]⟩

/-- C8: a vote on an existing id rewrites the collection as the same
records in the same order with only the targeted record's `votes` field
changed — the record-update `{ f with votes := _ }` preserves `id`,
`name`, `email`, `message` and `createdAt` — and a delete on an existing
id removes exactly that one record, returning it in `data`, with every
other record (and their order) untouched. -/
theorem record_immutability_frame (st : ServerState)
    (pre post : List Feedback) (f : Feedback) (i : String)
    (hpre : ∀ x ∈ pre, x.id ≠ i) (hf : f.id = i)
    (hst : st.store = pre ++ f :: post) :
    ((voteFeedback st i (.str "upvote") none).2.store =
        pre ++ { f with votes := f.votes + 1 } :: post) ∧
    ((voteFeedback st i (.str "downvote") none).2.store =
        pre ++ { f with votes := f.votes - 1 } :: post) ∧
    ({ f with votes := f.votes + 1 }).id = f.id ∧
    ({ f with votes := f.votes + 1 }).name = f.name ∧
    ({ f with votes := f.votes + 1 }).email = f.email ∧
    ({ f with votes := f.votes + 1 }).message = f.message ∧
    ({ f with votes := f.votes + 1 }).createdAt = f.createdAt ∧
    ({ f with votes := f.votes - 1 }).id = f.id ∧
    ({ f with votes := f.votes - 1 }).name = f.name ∧
    ({ f with votes := f.votes - 1 }).email = f.email ∧
    ({ f with votes := f.votes - 1 }).message = f.message ∧
    ({ f with votes := f.votes - 1 }).createdAt = f.createdAt ∧
    (deleteFeedback st i none =
      ({ status := 200, success := true,
         message := some "Feedback deleted successfully",
         data := some f, error := none },
       { store := pre ++ post, disk := pre ++ post })) := by
  refine ⟨?_, ?_, rfl, rfl, rfl, rfl, rfl, rfl, rfl, rfl, rfl, rfl, ?_⟩
  · simp only [voteFeedback, validAction_upvote, Bool.not_true,
      Bool.false_eq_true, if_false, hst,
      findById_append pre post f i hpre hf]
    rw [updateFirstById_append _ pre post f i hpre hf]
    simp
  · simp only [voteFeedback, validAction_downvote, Bool.not_true,
      Bool.false_eq_true, if_false, hst,
      findById_append pre post f i hpre hf]
    rw [updateFirstById_append _ pre post f i hpre hf]
    simp
  · simp only [deleteFeedback, hst,
      removeFirstById_append pre post f i hpre hf]

/-- Witness for C8: delete returns the removed record; upvote touches
only the votes field. -/
theorem record_immutability_frame_witness :
    (deleteFeedback ⟨[sampleRec], [sampleRec]⟩ "id1" none).1.data =
      some sampleRec ∧
    (voteFeedback ⟨[sampleRec], [sampleRec]⟩ "id1" (JsVal.str "upvote")
        none).2.store = [{ sampleRec with votes := 3 }] := by
  have h := record_immutability_frame ⟨[sampleRec], [sampleRec]⟩ [] []
      sampleRec "id1" (by simp) rfl rfl
  constructor
  · rw [h.2.2.2.2.2.2.2.2.2.2.2.2]
  · rw [h.1]
    decide

/-- C9: the vote route validates the action before looking the id up:
whenever the body's action is not exactly the string `"upvote"` or
`"downvote"` (missing, non-string, or any other value), the response is
the invalid-action 400 with the state unchanged, for every collection —
in particular also when the id is absent, so 400 takes precedence over
404. -/
theorem vote_action_before_lookup (st : ServerState) (i : String)
    (action : JsVal) (saveErr : Option String)
    (hact : validAction action = false) :
    voteFeedback st i action saveErr =
      ({ status := 400, success := false, message := some actionMsg,
         data := none, error := none }, st) := by
  simp [voteFeedback, hact]

/-- Witness for C9: an unknown action on an id that is not in the
collection still gets 400, not 404. -/
theorem vote_action_before_lookup_witness :
    voteFeedback ⟨[sampleRec], [sampleRec]⟩ "ghost" (JsVal.str "remove")
        none =
      ({ status := 400, success := false, message := some actionMsg,
         data := none, error := none }, ⟨[sampleRec], [sampleRec]⟩) :=
  vote_action_before_lookup ⟨[sampleRec], [sampleRec]⟩ "ghost"
    (JsVal.str "remove") none (by decide)

/-- C10 counterexample: with a truthy non-string message (`5`) and an
invalid email, the handler DOES return a 400 validation error (the email
check precedes the length check), refuting the claim's "does not return
a 400 validation error" for such requests. -/
theorem post_nonstring_message_400_possible :
    (JsVal.num 5).truthy = true ∧
    (postFeedback ⟨[], []⟩ (JsVal.str "Bob") (JsVal.str "not-an-email")
        (JsVal.num 5) "id1" "t1" none).1 =
      { status := 400, success := false, message := some emailMsg,
        data := none, error := none } := by
  decide

/-- C10 amended: once the required-fields and email checks pass, a truthy
non-string message makes `message.trim()` throw; the per-route catch
answers 500 with the raw `TypeError` text in `error`, and no record is
added (state unchanged). -/
theorem post_nonstring_message_500 (st : ServerState)
    (name email message : JsVal) (newId createdAt : String)
    (saveErr : Option String)
    (hn : name.truthy = true) (he : email.truthy = true)
    (hm : message.truthy = true)
    (hemail : isValidEmail email = true)
    (hns : ∀ s, message ≠ JsVal.str s) :
    postFeedback st name email message newId createdAt saveErr =
      ({ status := 500, success := false,
         message := some "Error creating feedback",
         data := none, error := some msgTrimError }, st) := by
  cases message with
  | str s => exact absurd rfl (hns s)
  | num n => simp [postFeedback, hn, he, hm, hemail]
  | bool b => simp [postFeedback, hn, he, hm, hemail]
  | null => simp [JsVal.truthy] at hm
  | undef => simp [JsVal.truthy] at hm

/-- Witness for C10's amended theorem: the number `5` as message with
otherwise valid fields. -/
theorem post_nonstring_message_500_witness :
    postFeedback ⟨[], []⟩ (JsVal.str "Bob") (JsVal.str "bob@ex.com")
        (JsVal.num 5) "id1" "t1" none =
      ({ status := 500, success := false,
         message := some "Error creating feedback",
         data := none, error := some msgTrimError }, ⟨[], []⟩) :=
  post_nonstring_message_500 ⟨[], []⟩ (JsVal.str "Bob")
    (JsVal.str "bob@ex.com") (JsVal.num 5) "id1" "t1" none
    (by decide) (by decide) (by decide) (by decide)
    (fun s h => nomatch h)
